import Mathlib

/-!
Verification of the OAuth2 token-acquisition core of graph-rs-sdk.

The development shallowly embeds the credential types and the
token-credential-executor contract of `graph-oauth`:

* `ClientSecretCredential` (client-credentials grant) with its
  `form_urlencode`, `uri`, `basic_auth` and `get_token_silent`
  (src/graph-oauth/src/identity/credentials/client_secret_credential.rs);
* `AuthorizationCodeCertificateCredential` (authorization-code /
  refresh-token grant with a certificate assertion) with its builder
  (src/graph-oauth/src/identity/credentials/authorization_code_certificate_credential.rs);
* the `TokenCredentialExecutor` trait's provided methods
  `authorization_request_parts`, `execute` and `execute_async`
  (src/graph-oauth/src/identity/credentials/token_credential_executor.rs);
* the interactive webview flow's closed error set and state machine.

Rust mutation of `&mut self` is embedded as explicit state passing: a
method that mutates the credential returns the result paired with the
updated credential.  Supporting types whose sources are not part of the
staged files (`OAuthSerializer`, `AppConfig`, `Token`,
`InMemoryTokenStore`, `AuthorizationRequest`, `WebViewExecutionError`)
are modelled from the specification; each such definition says so in its
doc comment.
-/

namespace GraphOauth

/-- Rust's `String::is_empty` / `str::is_empty`: true exactly when the
string has no characters (length zero). -/
def rustIsEmpty (s : String) : Bool :=
  decide (s.length = 0)

/-- Rust's `str::trim`: strips whitespace characters from both ends.
Embedded structurally over the character list so that it evaluates on
concrete inputs. -/
def rustTrim (s : String) : String :=
  String.mk (((s.data.dropWhile Char.isWhitespace).reverse.dropWhile
    Char.isWhitespace).reverse)

/-- `uuid::Uuid`: a 128-bit value. -/
structure Uuid where
  val : Nat
deriving DecidableEq, Repr

/-- `Uuid::is_nil`: all 128 bits are zero. -/
def Uuid.is_nil (u : Uuid) : Bool :=
  decide (u.val % 2 ^ 128 = 0)

/-- The 32 hexadecimal digits of a `Uuid`, most significant first. -/
def Uuid.hexDigits (u : Uuid) : List Char :=
  let ds := Nat.toDigits 16 (u.val % 2 ^ 128)
  List.replicate (32 - ds.length) '0' ++ ds

/-- `Uuid`'s `Display`: the hyphenated `8-4-4-4-12` form.  Its length is
36 characters for every input. -/
def Uuid.toString (u : Uuid) : String :=
  let d := u.hexDigits
  String.mk (d.take 8 ++ '-' :: (d.drop 8).take 4 ++ '-' :: (d.drop 12).take 4
    ++ '-' :: (d.drop 16).take 4 ++ '-' :: d.drop 20)

/-- `graph_error::AuthorizationFailure` restricted to the constructors the
embedded code produces: a required-value failure (`AF::result`,
`AF::msg_result`, `AF::msg_err`) carrying the parameter name and an
optional message, and a URL-parse failure. -/
inductive AuthorizationFailure where
  | requiredValue (name : String) (message : Option String)
  | urlParse (input : String)
deriving DecidableEq, Repr

/-- `graph_error::IdentityResult` / `AuthorizationResult`. -/
abbrev IdentityResult (α : Type) := Except AuthorizationFailure α

/-- `graph_error::AuthExecutionError`: an authorization failure, a
transport failure, or a response-deserialization failure. -/
inductive AuthExecutionError where
  | authorization (failure : AuthorizationFailure)
  | request (message : String)
  | deserialization (message : String)
deriving DecidableEq, Repr

/-- The `OAuthParameter` variants the embedded credentials use. -/
inductive OAuthParameter where
  | clientId
  | clientSecret
  | grantType
  | scope
  | refreshToken
  | authorizationCode
  | redirectUri
  | codeVerifier
  | clientAssertion
  | clientAssertionType
  | authorizationUrl
  | tokenUrl
  | accessTokenUrl
deriving DecidableEq, Repr

/-- `OAuthParameter::alias`: the wire name of each parameter. -/
def OAuthParameter.alias : OAuthParameter → String
  | .clientId => "client_id"
  | .clientSecret => "client_secret"
  | .grantType => "grant_type"
  | .scope => "scope"
  | .refreshToken => "refresh_token"
  | .authorizationCode => "code"
  | .redirectUri => "redirect_uri"
  | .codeVerifier => "code_verifier"
  | .clientAssertion => "client_assertion"
  | .clientAssertionType => "client_assertion_type"
  | .authorizationUrl => "authorization_url"
  | .tokenUrl => "token_url"
  | .accessTokenUrl => "access_token_url"

/-- Modelled from the spec: `OAuthSerializer` (its source file is not
among the staged files).  A mutable store of OAuth parameter values; the
request serializer of spec §4.2 writes grant fields into it and reads a
validated form map back out. -/
structure OAuthSerializer where
  entries : OAuthParameter → Option String

/-- `OAuthSerializer::new` / `Default::default()`: no parameter set. -/
def OAuthSerializer.new : OAuthSerializer :=
  ⟨fun _ => none⟩

/-- Setting one parameter: later writes shadow earlier ones. -/
def OAuthSerializer.set (s : OAuthSerializer) (p : OAuthParameter) (v : String) :
    OAuthSerializer :=
  ⟨fun q => if q = p then some v else s.entries q⟩

/-- Reading one parameter. -/
def OAuthSerializer.get (s : OAuthSerializer) (p : OAuthParameter) : Option String :=
  s.entries p

/-- Modelled from the spec: `OAuthSerializer::extend_scopes`.  Spec §4.2:
the scope list is space-joined in insertion order and included only if
non-empty. -/
def OAuthSerializer.extendScopes (s : OAuthSerializer) (scopes : List String) :
    OAuthSerializer :=
  if scopes.isEmpty then s else s.set .scope (String.intercalate " " scopes)

/-- A form-encoded body: a flat string-to-string map with unique keys,
kept as an association list. -/
abbrev FormMap := List (String × String)

/-- Modelled from the spec: `OAuthSerializer::as_credential_map`.  Spec
§4.2: the output is a flat string-to-string mapping whose key set depends
only on which fields are present; a parameter listed here but absent from
the serializer is omitted.  The first list holds the grant's optional
parameters, the second the parameters the grant always writes — exactly
the two vectors the credential implementations pass. -/
def OAuthSerializer.as_credential_map (s : OAuthSerializer)
    (optionalParams requiredParams : List OAuthParameter) : IdentityResult FormMap :=
  .ok ((optionalParams ++ requiredParams).filterMap
    (fun p => (s.get p).map (fun v => (p.alias, v))))

/-- `identity::Authority`: the tenant-scoping identifier (spec §3). -/
inductive Authority where
  | common
  | organizations
  | consumers
  | tenantId (tenant : String)
deriving DecidableEq, Repr

/-- `Authority::as_ref`: the path segment of each authority. -/
def Authority.asRef : Authority → String
  | .common => "common"
  | .organizations => "organizations"
  | .consumers => "consumers"
  | .tenantId tenant => tenant

/-- `identity::AzureCloudInstance`: the sovereign cloud (spec §3). -/
inductive AzureCloudInstance where
  | azurePublic
  | azureChina
  | azureGermany
  | azureUsGovernment
deriving DecidableEq, Repr

/-- `AzureCloudInstance::as_ref`: the login host of each cloud. -/
def AzureCloudInstance.asRef : AzureCloudInstance → String
  | .azurePublic => "https://login.microsoftonline.com"
  | .azureChina => "https://login.chinacloudapi.cn"
  | .azureGermany => "https://login.microsoftonline.de"
  | .azureUsGovernment => "https://login.microsoftonline.us"

/-- `AzureAuthorityHost` is the older name the certificate credential's
trait uses for the cloud-instance host. -/
abbrev AzureAuthorityHost := AzureCloudInstance

/-- Modelled from the spec: `OAuthSerializer::authority`.  Spec §4.1: a
pure function of the cloud instance and the authority that writes the
authorization and token endpoints into the serializer (the v2.0 endpoints
`{host}/{authority}/oauth2/v2.0/{authorize,token}`, as the repository's
`openid_configuration_url` tests pin the host). -/
def OAuthSerializer.authority (s : OAuthSerializer) (aci : AzureCloudInstance)
    (a : Authority) : OAuthSerializer :=
  let base := aci.asRef ++ "/" ++ a.asRef
  ((s.set .authorizationUrl (base ++ "/oauth2/v2.0/authorize")).set
      .tokenUrl (base ++ "/oauth2/v2.0/token")).set
    .accessTokenUrl (base ++ "/oauth2/v2.0/token")

/-- A parsed URL, kept as its serialized text. -/
abbrev Url := String

/-- `url::Url::parse` as the embedding needs it: accepts an absolute
http(s) URL (every URL the serializer builds), rejects anything else.
A pure, deterministic function. -/
def Url.parse (s : String) : IdentityResult Url :=
  if s.startsWith "https://" || s.startsWith "http://" then .ok s
  else .error (.urlParse s)

/-- Modelled from the spec: `AppConfig` (spec §3): immutable
per-application identity owned by every credential — client id (UUID),
optional tenant id, authority, cloud instance, extra header and query
parameter maps — plus the derived cache identity used by the token
cache. -/
structure AppConfig where
  client_id : Uuid
  tenant_id : Option String := none
  authority : Authority := .common
  azure_cloud_instance : AzureCloudInstance := .azurePublic
  extra_header_parameters : List (String × String) := []
  extra_query_parameters : List (String × String) := []
  cache_id : String := ""
deriving DecidableEq, Repr

/-- Modelled from the spec: `Token` (spec §3): access token, token type,
lifetime in seconds, wall-clock capture time, optional refresh and id
tokens.  Immutable once constructed. -/
structure Token where
  access_token : String
  token_type : String := "Bearer"
  expires_in : Nat
  issued_at : Nat
  refresh_token : Option String := none
  id_token : Option String := none
deriving DecidableEq, Repr

/-- Modelled from the spec: `Token::is_expired_sub` — the derived
`is_expired_within(margin)` property of spec §3: the token is treated as
expired once fewer than `margin` seconds of its lifetime remain at
wall-clock time `now` (all quantities in seconds). -/
def Token.is_expired_sub (t : Token) (margin now : Nat) : Bool :=
  decide (t.issued_at + t.expires_in ≤ now + margin)

/-- Modelled from the spec: `InMemoryTokenStore` (spec §3, TokenCache): a
keyed store from cache-identity strings to tokens. -/
def InMemoryTokenStore := List (String × Token)

/-- `InMemoryTokenStore::new`: empty store. -/
def InMemoryTokenStore.new : InMemoryTokenStore := []

/-- Cache lookup. -/
def InMemoryTokenStore.get (store : InMemoryTokenStore) (key : String) : Option Token :=
  List.lookup key store

/-- Cache store: overwrites any prior entry under the key. -/
def InMemoryTokenStore.store (store : InMemoryTokenStore) (key : String) (t : Token) :
    InMemoryTokenStore :=
  (key, t) :: List.filter (fun p => p.1 != key) store

/-- `ClientSecretCredential`
(src/graph-oauth/src/identity/credentials/client_secret_credential.rs):
client-credentials flow using a client secret. -/
structure ClientSecretCredential where
  app_config : AppConfig
  client_secret : String
  scope : List String
  serializer : OAuthSerializer
  token_cache : InMemoryTokenStore

/-- `ClientSecretCredential::new`: fresh serializer and cache, the
default Graph `.default` scope. -/
def ClientSecretCredential.new (client_id : Uuid) (client_secret : String) :
    ClientSecretCredential where
  app_config := { client_id := client_id }
  client_secret := client_secret
  scope := ["https://graph.microsoft.com/.default"]
  serializer := OAuthSerializer.new
  token_cache := InMemoryTokenStore.new

/-- `ClientSecretCredential::uri` (lines 146-159): writes the authority's
endpoints into the serializer, reads the token URL back and parses it.
Mutates the serializer, so the updated credential is returned. -/
def ClientSecretCredential.uri (c : ClientSecretCredential) :
    IdentityResult Url × ClientSecretCredential :=
  let s := c.serializer.authority c.app_config.azure_cloud_instance
    c.app_config.authority
  let c' := { c with serializer := s }
  match s.get .tokenUrl with
  | none =>
    (.error (.requiredValue "token_url for access and refresh tokens missing"
      (some "Internal Error")), c')
  | some u => (Url.parse u, c')

/-- `ClientSecretCredential::form_urlencode` (lines 161-187): validates
the client id and secret, writes client id, client secret, grant type
and scopes into the serializer, and reads back a map holding only the
scope and grant-type fields — client id and client secret are excluded
because they travel as basic auth. -/
def ClientSecretCredential.form_urlencode (c : ClientSecretCredential) :
    IdentityResult FormMap × ClientSecretCredential :=
  let client_id := c.app_config.client_id.toString
  if rustIsEmpty client_id || c.app_config.client_id.is_nil then
    (.error (.requiredValue OAuthParameter.clientId.alias none), c)
  else if rustIsEmpty (rustTrim c.client_secret) then
    (.error (.requiredValue OAuthParameter.clientSecret.alias none), c)
  else
    let s := ((c.serializer.set .clientId client_id).set
      .clientSecret c.client_secret).set .grantType "client_credentials"
    let s := if c.scope.isEmpty then
        s.extendScopes ["https://graph.microsoft.com/.default"]
      else s.extendScopes c.scope
    (s.as_credential_map [.scope] [.grantType], { c with serializer := s })

/-- `ClientSecretCredential::basic_auth` (lines 201-206): always supplies
the client id and client secret for the HTTP basic-auth header. -/
def ClientSecretCredential.basic_auth (c : ClientSecretCredential) :
    Option (String × String) :=
  some (c.app_config.client_id.toString, c.client_secret)

/-- The observable outcome of one `get_token_silent` call: the returned
result, the cache afterwards, and whether an HTTP call was made. -/
structure SilentTokenOutcome where
  result : Except AuthExecutionError Token
  token_cache : InMemoryTokenStore
  http_called : Bool

/-- `ClientSecretCredential::get_token_silent` (lines 101-118).  The
network is embedded as the oracle `http`: the token the combination of
`execute()` and `response.json()` would produce (or its error).  On a
cache hit with at least five minutes of lifetime left the cached token is
returned unchanged with no HTTP call; otherwise the executor runs, and a
fresh token is stored under the cache identity (overwriting any prior
entry) and returned. -/
def ClientSecretCredential.get_token_silent (c : ClientSecretCredential)
    (now : Nat) (http : Except AuthExecutionError Token) : SilentTokenOutcome :=
  let cache_id := c.app_config.cache_id
  match c.token_cache.get cache_id with
  | some token =>
    if token.is_expired_sub 300 now then
      match http with
      | .ok msal_token =>
        ⟨.ok msal_token, c.token_cache.store cache_id msal_token, true⟩
      | .error e => ⟨.error e, c.token_cache, true⟩
    else ⟨.ok token, c.token_cache, false⟩
  | none =>
    match http with
    | .ok msal_token =>
      ⟨.ok msal_token, c.token_cache.store cache_id msal_token, true⟩
    | .error e => ⟨.error e, c.token_cache, true⟩

/-- `ClientSecretCredential::get_token_silent_async` (lines 121-141): the
same branch structure as the blocking path, awaiting `execute_async`
instead of calling `execute`. -/
def ClientSecretCredential.get_token_silent_async (c : ClientSecretCredential)
    (now : Nat) (http : Except AuthExecutionError Token) : SilentTokenOutcome :=
  let cache_id := c.app_config.cache_id
  match c.token_cache.get cache_id with
  | some token =>
    if token.is_expired_sub 300 now then
      match http with
      | .ok msal_token =>
        ⟨.ok msal_token, c.token_cache.store cache_id msal_token, true⟩
      | .error e => ⟨.error e, c.token_cache, true⟩
    else ⟨.ok token, c.token_cache, false⟩
  | none =>
    match http with
    | .ok msal_token =>
      ⟨.ok msal_token, c.token_cache.store cache_id msal_token, true⟩
    | .error e => ⟨.error e, c.token_cache, true⟩

/-- `CLIENT_ASSERTION_TYPE`: the fixed JWT-bearer assertion type. -/
def CLIENT_ASSERTION_TYPE : String :=
  "urn:ietf:params:oauth:client-assertion-type:jwt-bearer"

/-- `AuthorizationCodeCertificateCredential`
(src/graph-oauth/src/identity/credentials/authorization_code_certificate_credential.rs).
`TokenCredentialOptions` is omitted: no embedded operation reads it. -/
structure AuthorizationCodeCertificateCredential where
  authorization_code : Option String
  refresh_token : Option String
  client_id : String
  redirect_uri : Option Url
  code_verifier : Option String
  client_assertion_type : String
  client_assertion : String
  scope : List String
  authority : Authority
  serializer : OAuthSerializer

/-- `AuthorizationCodeCertificateCredential::uri` (lines 107-116). -/
def AuthorizationCodeCertificateCredential.uri
    (c : AuthorizationCodeCertificateCredential)
    (azure_authority_host : AzureAuthorityHost) :
    IdentityResult Url × AuthorizationCodeCertificateCredential :=
  let s := c.serializer.authority azure_authority_host c.authority
  let c' := { c with serializer := s }
  match s.get .accessTokenUrl with
  | none => (.error (.requiredValue "access_token_url" (some "Internal Error")), c')
  | some u => (Url.parse u, c')

/-- `AuthorizationCodeCertificateCredential::form_urlencode`
(lines 118-200): validates client id and client assertion, re-fills a
blank assertion type, writes the common fields, then branches — a present
refresh token (blank ⇒ error) selects the refresh-token grant, else a
present authorization code (blank ⇒ error) selects the
authorization-code grant, else a validation error. -/
def AuthorizationCodeCertificateCredential.form_urlencode
    (c : AuthorizationCodeCertificateCredential) :
    IdentityResult FormMap × AuthorizationCodeCertificateCredential :=
  if rustIsEmpty (rustTrim c.client_id) then
    (.error (.requiredValue OAuthParameter.clientId.alias none), c)
  else if rustIsEmpty (rustTrim c.client_assertion) then
    (.error (.requiredValue OAuthParameter.clientAssertion.alias none), c)
  else
    let c := if rustIsEmpty (rustTrim c.client_assertion_type) then
        { c with client_assertion_type := CLIENT_ASSERTION_TYPE }
      else c
    let s := (((c.serializer.set .clientId c.client_id).set
      .clientAssertion c.client_assertion).set
      .clientAssertionType c.client_assertion_type).extendScopes c.scope
    let s := match c.redirect_uri with
      | some redirect_uri => s.set .redirectUri redirect_uri
      | none => s
    let s := match c.code_verifier with
      | some code_verifier => s.set .codeVerifier code_verifier
      | none => s
    match c.refresh_token with
    | some refresh_token =>
      if rustIsEmpty (rustTrim refresh_token) then
        (.error (.requiredValue OAuthParameter.refreshToken.alias
          (some "refresh_token is empty - cannot be an empty string")),
         { c with serializer := s })
      else
        let s := (s.set .refreshToken refresh_token).set .grantType "refresh_token"
        (s.as_credential_map [.scope]
          [.refreshToken, .clientId, .grantType, .clientAssertion,
            .clientAssertionType],
         { c with serializer := s })
    | none =>
      match c.authorization_code with
      | some authorization_code =>
        if rustIsEmpty (rustTrim authorization_code) then
          (.error (.requiredValue OAuthParameter.authorizationCode.alias
            (some "authorization_code is empty - cannot be an empty string")),
           { c with serializer := s })
        else
          let s := (s.set .authorizationCode authorization_code).set
            .grantType "authorization_code"
          (s.as_credential_map [.scope, .codeVerifier]
            [.authorizationCode, .clientId, .grantType, .redirectUri,
              .clientAssertion, .clientAssertionType],
           { c with serializer := s })
      | none =>
        (.error (.requiredValue
          (OAuthParameter.authorizationCode.alias ++ " or "
            ++ OAuthParameter.refreshToken.alias)
          (some "Either authorization code or refresh token is required")),
         { c with serializer := s })

/-- `AuthorizationCodeCertificateCredentialBuilder` (lines 211-283). -/
structure AuthorizationCodeCertificateCredentialBuilder where
  credential : AuthorizationCodeCertificateCredential

/-- `AuthorizationCodeCertificateCredentialBuilder::new` (lines 217-233):
everything unset; the assertion field starts out holding the assertion
type constant, as in the source. -/
def AuthorizationCodeCertificateCredentialBuilder.new :
    AuthorizationCodeCertificateCredentialBuilder where
  credential :=
    { authorization_code := none
      refresh_token := none
      client_id := ""
      redirect_uri := none
      code_verifier := none
      client_assertion_type := ""
      client_assertion := CLIENT_ASSERTION_TYPE
      scope := []
      authority := .common
      serializer := OAuthSerializer.new }

/-- `with_authorization_code` (lines 235-238): sets the authorization
code and nothing else — in particular a previously set refresh token
stays in place. -/
def AuthorizationCodeCertificateCredentialBuilder.with_authorization_code
    (b : AuthorizationCodeCertificateCredentialBuilder)
    (authorization_code : String) : AuthorizationCodeCertificateCredentialBuilder :=
  ⟨{ b.credential with authorization_code := some authorization_code }⟩

/-- `with_refresh_token` (lines 240-244): clears the authorization code
and sets the refresh token; no other field changes. -/
def AuthorizationCodeCertificateCredentialBuilder.with_refresh_token
    (b : AuthorizationCodeCertificateCredentialBuilder)
    (refresh_token : String) : AuthorizationCodeCertificateCredentialBuilder :=
  ⟨{ b.credential with
      authorization_code := none
      refresh_token := some refresh_token }⟩

/-- Modelled from the spec: `AuthorizationRequest` (spec §3): ephemeral
value holding the target URI, form body, optional basic auth, extra
headers and extra query parameters.  `AuthorizationRequest::new` takes
the first three; `with_extra_headers` / `with_extra_query_parameters`
fill in the rest from the `AppConfig`. -/
structure AuthorizationRequest where
  uri : Url
  form_urlencoded : FormMap
  basic_auth : Option (String × String)
  headers : List (String × String)
  query : List (String × String)
deriving DecidableEq, Repr

/-- The `TokenCredentialExecutor` trait
(src/graph-oauth/src/identity/credentials/token_credential_executor.rs):
the four methods an implementor supplies, over its own state `σ`.
`uri` and `form_urlencode` take `&mut self`, so they return the updated
state; `basic_auth` defaults to `None` for implementors that do not
override it. -/
structure TokenCredentialExecutorOps (σ : Type) where
  uri : σ → IdentityResult Url × σ
  form_urlencode : σ → IdentityResult FormMap × σ
  basic_auth : σ → Option (String × String)
  app_config : σ → AppConfig

/-- `TokenCredentialExecutor::authorization_request_parts` (lines 28-40):
resolve the URI, serialize the form, and package them with the basic-auth
pair and the `AppConfig`'s extra headers and query parameters. -/
def TokenCredentialExecutorOps.authorization_request_parts {σ : Type}
    (ops : TokenCredentialExecutorOps σ) (s : σ) :
    IdentityResult AuthorizationRequest × σ :=
  match ops.uri s with
  | (.error e, s1) => (.error e, s1)
  | (.ok uri, s1) =>
    match ops.form_urlencode s1 with
    | (.error e, s2) => (.error e, s2)
    | (.ok form, s2) =>
      (.ok { uri := uri
             form_urlencoded := form
             basic_auth := ops.basic_auth s2
             headers := (ops.app_config s2).extra_header_parameters
             query := (ops.app_config s2).extra_query_parameters }, s2)

/-- The observable shape of the HTTP request an executor builds: method,
target URI, basic-auth pair (reqwest renders it as the `Authorization:
Basic …` header), the header set, and the form body.  `reqwest`'s
`.form(…)` sets the `content-type` header on every request. -/
structure HttpRequest where
  method : String
  uri : Url
  basic_auth : Option (String × String)
  headers : List (String × String)
  form : FormMap
deriving DecidableEq, Repr

/-- The header `.form(…)` always sets. -/
def contentTypeHeader : String × String :=
  ("content-type", "application/x-www-form-urlencoded")

/-- `TokenCredentialExecutor::execute` (lines 117-138): builds the
blocking POST.  With a basic-auth pair the request carries the basic-auth
header, the `AuthorizationRequest`'s headers and the form; WITHOUT one
the source builds `post(uri).form(…)` only — the
`auth_request.headers` are not applied on that branch. -/
def TokenCredentialExecutorOps.execute {σ : Type}
    (ops : TokenCredentialExecutorOps σ) (s : σ) : IdentityResult HttpRequest × σ :=
  match ops.authorization_request_parts s with
  | (.error e, s1) => (.error e, s1)
  | (.ok auth_request, s1) =>
    match auth_request.basic_auth with
    | some (client_identifier, secret) =>
      (.ok { method := "POST"
             uri := auth_request.uri
             basic_auth := some (client_identifier, secret)
             headers := contentTypeHeader :: auth_request.headers
             form := auth_request.form_urlencoded }, s1)
    | none =>
      (.ok { method := "POST"
             uri := auth_request.uri
             basic_auth := none
             headers := [contentTypeHeader]
             form := auth_request.form_urlencoded }, s1)

/-- `TokenCredentialExecutor::execute_async` (lines 168-207): builds the
non-blocking POST.  Unlike the blocking path, BOTH branches apply
`auth_request.headers`. -/
def TokenCredentialExecutorOps.execute_async {σ : Type}
    (ops : TokenCredentialExecutorOps σ) (s : σ) : IdentityResult HttpRequest × σ :=
  match ops.authorization_request_parts s with
  | (.error e, s1) => (.error e, s1)
  | (.ok auth_request, s1) =>
    match auth_request.basic_auth with
    | some (client_identifier, secret) =>
      (.ok { method := "POST"
             uri := auth_request.uri
             basic_auth := some (client_identifier, secret)
             headers := contentTypeHeader :: auth_request.headers
             form := auth_request.form_urlencoded }, s1)
    | none =>
      (.ok { method := "POST"
             uri := auth_request.uri
             basic_auth := none
             headers := contentTypeHeader :: auth_request.headers
             form := auth_request.form_urlencoded }, s1)

/-- A minimal executor state: its four trait methods read the stored
results directly.  `basicAuth := none` is the trait's default
`basic_auth` (token_credential_executor.rs lines 54-56). -/
structure SimpleExecState where
  uriResult : IdentityResult Url
  formResult : IdentityResult FormMap
  basicAuth : Option (String × String)
  config : AppConfig

/-- The trait instance for `SimpleExecState`. -/
def simpleExecOps : TokenCredentialExecutorOps SimpleExecState where
  uri s := (s.uriResult, s)
  form_urlencode s := (s.formResult, s)
  basic_auth s := s.basicAuth
  app_config s := s.config

/-- `graph_error::WebViewExecutionError`: the closed set of failure kinds
of the interactive webview flow, exactly the variants the exhaustive
match in src/examples/interactive_authentication/webview_errors.rs
(lines 16-44) enumerates. -/
inductive WebViewExecutionError where
  | invalidRedirectUri (uri : String)
  | windowClosedRequested
  | windowClosedOnInvalidNavigation
  | windowClosedOnTimeoutReached
  | invalidStartUri (reason : String)
  | redirectUriMissingQueryOrFragment (uri : String)
  | serdeError (message : String)
  | recvError (message : String)
  | authorizationError (failure : AuthorizationFailure)
  | authExecutionError (error : AuthExecutionError)
deriving DecidableEq, Repr

/-- Modelled from the spec: the interactive webview flow's states
(spec §4.5): `Idle → NavigatingToAuthUrl → AwaitingRedirect →
{Succeeded | Failed}`. -/
inductive WebViewState where
  | idle
  | navigatingToAuthUrl
  | awaitingRedirect
  | succeeded (codeOrFragment : String)
  | failed (kind : WebViewExecutionError)
deriving DecidableEq, Repr

/-- The terminal states: `Succeeded` and `Failed`. -/
def WebViewState.isTerminal : WebViewState → Bool
  | .succeeded _ => true
  | .failed _ => true
  | _ => false

/-- Modelled from the spec: the transition triggers of spec §4.5.
`start` carries the fail-fast validation outcomes (loopback redirect URI
without a port, credential-builder failure, structurally invalid start
host); `redirected` carries the navigated URL's query-or-fragment, if
any, and the result of parsing it into the expected response shape. -/
inductive WebViewEvent where
  | start (redirectUri : String) (loopbackWithoutPort : Bool)
      (builderFailure : Option AuthorizationFailure)
      (invalidStartHost : Option String)
  | authUrlLoaded
  | windowClosed
  | invalidNavigation
  | timeoutReached
  | channelFailure (message : String)
  | redirected (uri : String) (queryOrFragment : Option String)
      (parsedCode : Option String)
deriving DecidableEq, Repr

/-- Modelled from the spec: the webview state machine of spec §4.5.  Each
§4.5 trigger maps to its failure kind; terminal states ignore every
further event. -/
def webViewStep (s : WebViewState) (e : WebViewEvent) : WebViewState :=
  match s with
  | .succeeded c => .succeeded c
  | .failed k => .failed k
  | .idle =>
    match e with
    | .start redirectUri loopbackWithoutPort builderFailure invalidStartHost =>
      if loopbackWithoutPort then .failed (.invalidRedirectUri redirectUri)
      else match builderFailure with
        | some failure => .failed (.authorizationError failure)
        | none =>
          match invalidStartHost with
          | some reason => .failed (.invalidStartUri reason)
          | none => .navigatingToAuthUrl
    | _ => .idle
  | .navigatingToAuthUrl =>
    match e with
    | .authUrlLoaded => .awaitingRedirect
    | .windowClosed => .failed .windowClosedRequested
    | .invalidNavigation => .failed .windowClosedOnInvalidNavigation
    | .timeoutReached => .failed .windowClosedOnTimeoutReached
    | .channelFailure m => .failed (.recvError m)
    | _ => .navigatingToAuthUrl
  | .awaitingRedirect =>
    match e with
    | .windowClosed => .failed .windowClosedRequested
    | .invalidNavigation => .failed .windowClosedOnInvalidNavigation
    | .timeoutReached => .failed .windowClosedOnTimeoutReached
    | .channelFailure m => .failed (.recvError m)
    | .redirected uri queryOrFragment parsedCode =>
      match queryOrFragment with
      | none => .failed (.redirectUriMissingQueryOrFragment uri)
      | some qf =>
        match parsedCode with
        | none => .failed (.serdeError qf)
        | some code => .succeeded code
    | _ => .awaitingRedirect

/-- Modelled from the spec: the flow's report to the caller (spec §4.5
and §7).  A terminal `Failed` is returned as its own error; on
`Succeeded` the captured code goes through the executor path (`exchange`)
and any failure there is reported as `AuthExecutionError`.  `none` means
the flow is still running. -/
def webViewOutcome (s : WebViewState)
    (exchange : String → Except AuthExecutionError Token) :
    Option (Except WebViewExecutionError Token) :=
  match s with
  | .failed k => some (.error k)
  | .succeeded code =>
    match exchange code with
    | .ok token => some (.ok token)
    | .error e => some (.error (.authExecutionError e))
  | _ => none

deriving instance DecidableEq for Except

/-- A client-secret credential with a valid (non-nil) client id and a
non-blank secret, used as concrete input. -/
def secretCred : ClientSecretCredential :=
  ClientSecretCredential.new ⟨5⟩ "sec"

/-- A client-secret credential whose client id is the nil UUID. -/
def nilSecretCred : ClientSecretCredential :=
  ClientSecretCredential.new ⟨0⟩ "sec"

/-- A token issued at wall-clock time 0 with a 3600-second lifetime. -/
def cachedToken : Token :=
  { access_token := "tok", expires_in := 3600, issued_at := 0 }

/-- A later token, as a refresh would produce. -/
def freshToken : Token :=
  { access_token := "tok2", expires_in := 3600, issued_at := 3595 }

/-- A client-secret credential whose cache holds `cachedToken` under its
cache identity. -/
def c2Cred : ClientSecretCredential :=
  { secretCred with
      app_config := { secretCred.app_config with cache_id := "cache-1" }
      token_cache := [("cache-1", cachedToken)] }

/-- A certificate credential template with every optional field unset. -/
def baseCertCred : AuthorizationCodeCertificateCredential :=
  { authorization_code := none
    refresh_token := none
    client_id := "client-7"
    redirect_uri := none
    code_verifier := none
    client_assertion_type := CLIENT_ASSERTION_TYPE
    client_assertion := "assertion-jwt"
    scope := []
    authority := .common
    serializer := OAuthSerializer.new }

/-- Certificate credential with both the authorization code and the
refresh token set and non-blank. -/
def certCredBoth : AuthorizationCodeCertificateCredential :=
  { baseCertCred with
      authorization_code := some "code-123", refresh_token := some "rt-1" }

/-- Certificate credential with only the authorization code set. -/
def certCredCodeOnly : AuthorizationCodeCertificateCredential :=
  { baseCertCred with authorization_code := some "code-123" }

/-- Certificate credential with an empty client id, a blank-but-present
refresh token and a non-empty authorization code. -/
def c8Cred : AuthorizationCodeCertificateCredential :=
  { baseCertCred with
      client_id := ""
      authorization_code := some "code-123"
      refresh_token := some "" }

/-- Certificate credential with a valid client id, a blank-but-present
refresh token (one space) and a non-empty authorization code. -/
def c8BlankRefreshCred : AuthorizationCodeCertificateCredential :=
  { baseCertCred with
      authorization_code := some "code-123", refresh_token := some " " }

/-- A builder holding a valid certificate credential. -/
def c9Builder : AuthorizationCodeCertificateCredentialBuilder :=
  ⟨baseCertCred⟩

/-- The `AppConfig` of the executor divergence exhibit: one extra header
configured. -/
def c1Config : AppConfig :=
  { client_id := ⟨1⟩
    extra_header_parameters := [("client-request-id", "7b1059ad")] }

/-- Executor state on which both request-building paths succeed: the URI
and form resolve, `basic_auth` is the trait default `None`, and the
`AppConfig` carries one extra header. -/
def c1State : SimpleExecState :=
  { uriResult := .ok "https://login.microsoftonline.com/common/oauth2/v2.0/token"
    formResult := .ok [("grant_type", "client_credentials")]
    basicAuth := none
    config := c1Config }

/-- The form map serialization produces for `c9Builder` after
`with_refresh_token "rt-9"` followed by `with_authorization_code
"code-9"`. -/
def c9FormMap : FormMap :=
  [("refresh_token", "rt-9"), ("client_id", "client-7"),
   ("grant_type", "refresh_token"), ("client_assertion", "assertion-jwt"),
   ("client_assertion_type", CLIENT_ASSERTION_TYPE)]

/-! ## Helper lemmas -/

/-- Reading a parameter after a write. -/
theorem OAuthSerializer.get_set (s : OAuthSerializer)
    (p : OAuthParameter) (v : String) (q : OAuthParameter) :
    (s.set p v).get q = if q = p then some v else s.get q := rfl

/-- A UUID's textual form has a positive length: the hyphenated `8-4-4-4-12`
rendering always contains its four hyphens. -/
theorem uuidToString_length_pos (u : Uuid) : 0 < (Uuid.toString u).length := by
  simp [Uuid.toString, String.length]

/-- The string-emptiness test on a UUID's textual form never fires. -/
theorem rustIsEmpty_uuidToString (u : Uuid) : rustIsEmpty u.toString = false := by
  simp [rustIsEmpty, Uuid.toString, String.length]

/-- A lookup in the credential map skips a parameter whose wire name is
not the key, whether or not the parameter is present. -/
theorem lookup_skip (s : OAuthSerializer) (k : String) (p : OAuthParameter)
    (l : List OAuthParameter) (h : p.alias ≠ k) :
    List.lookup k ((p :: l).filterMap
        (fun q => (s.get q).map (fun w => (q.alias, w)))) =
      List.lookup k (l.filterMap
        (fun q => (s.get q).map (fun w => (q.alias, w)))) := by
  cases hv : s.get p with
  | none => simp [List.filterMap_cons, hv]
  | some v =>
    have hk : (k == p.alias) = false := beq_eq_false_iff_ne.mpr (Ne.symm h)
    simp [List.filterMap_cons, hv, List.lookup, hk]

/-- With a basic-auth pair present, the blocking and the non-blocking
executor paths build the same request: the divergence of claim C1 is
confined to the `basic_auth = None` branch. -/
theorem execute_eq_execute_async_of_basic_auth {σ : Type}
    (ops : TokenCredentialExecutorOps σ) (s s1 : σ)
    (req : AuthorizationRequest)
    (hp : ops.authorization_request_parts s = (.ok req, s1))
    (hb : req.basic_auth.isSome = true) :
    ops.execute s = ops.execute_async s := by
  unfold TokenCredentialExecutorOps.execute TokenCredentialExecutorOps.execute_async
  rw [hp]
  cases hbb : req.basic_auth with
  | some p => obtain ⟨cid, sec⟩ := p; simp [hbb]
  | none => rw [hbb] at hb; exact absurd hb (by simp)

/-! ## Claim theorems -/

/-- Claim C1 (code bug exhibit): on a credential state on which both
request-building paths succeed — URI and form resolve, `basic_auth` is
the trait default `None`, and the `AppConfig` carries one extra header —
the blocking `execute` builds a request WITHOUT the extra header while
`execute_async` builds one WITH it, so the two observable requests
differ, contradicting the spec's requirement that both paths produce
observably identical requests. -/
theorem execute_blocking_async_header_divergence :
    (simpleExecOps.execute c1State).1 =
      .ok { method := "POST"
            uri := "https://login.microsoftonline.com/common/oauth2/v2.0/token"
            basic_auth := none
            headers := [contentTypeHeader]
            form := [("grant_type", "client_credentials")] } ∧
    (simpleExecOps.execute_async c1State).1 =
      .ok { method := "POST"
            uri := "https://login.microsoftonline.com/common/oauth2/v2.0/token"
            basic_auth := none
            headers := [contentTypeHeader, ("client-request-id", "7b1059ad")]
            form := [("grant_type", "client_credentials")] } ∧
    (simpleExecOps.execute c1State).1 ≠ (simpleExecOps.execute_async c1State).1 := by
  refine ⟨rfl, rfl, ?_⟩
  decide

/-- Claim C2: `get_token_silent` returns a cached token unchanged with no
HTTP call when it is not expired within the 5-minute (300-second) margin;
when the cached token is expired within that margin, or no entry exists
for the cache identity, it performs the HTTP call, stores the fresh token
under the cache identity (overwriting any prior entry) and returns it;
and the async path computes exactly the same outcome. -/
theorem get_token_silent_cache_spec :
    ∀ (c : ClientSecretCredential) (now : Nat)
      (http : Except AuthExecutionError Token),
      (∀ token, c.token_cache.get c.app_config.cache_id = some token →
        ((token.is_expired_sub 300 now = false →
            c.get_token_silent now http = ⟨.ok token, c.token_cache, false⟩) ∧
         (token.is_expired_sub 300 now = true → ∀ t, http = .ok t →
            c.get_token_silent now http =
              ⟨.ok t, c.token_cache.store c.app_config.cache_id t, true⟩))) ∧
      (c.token_cache.get c.app_config.cache_id = none → ∀ t, http = .ok t →
        c.get_token_silent now http =
          ⟨.ok t, c.token_cache.store c.app_config.cache_id t, true⟩) ∧
      c.get_token_silent_async now http = c.get_token_silent now http := by
  intro c now http
  refine ⟨fun token htok => ⟨fun hfresh => ?_, fun hexp t hok => ?_⟩,
    fun hnone t hok => ?_, ?_⟩
  · simp [ClientSecretCredential.get_token_silent, htok, hfresh]
  · simp [ClientSecretCredential.get_token_silent, htok, hexp, hok]
  · simp [ClientSecretCredential.get_token_silent, hnone, hok]
  · simp only [ClientSecretCredential.get_token_silent,
      ClientSecretCredential.get_token_silent_async]

/-- Claim C2 witness: with a token issued at 0 with lifetime 3600 cached
under the credential's cache identity, a lookup at 3000 seconds is a
cache hit returning the cached token with no HTTP call, and a lookup at
3595 seconds (inside the 5-minute margin) refreshes: it calls out, stores
the fresh token and returns it. -/
theorem get_token_silent_cache_spec_witness :
    c2Cred.get_token_silent 3000 (.ok freshToken) =
      ⟨.ok cachedToken, c2Cred.token_cache, false⟩ ∧
    c2Cred.get_token_silent 3595 (.ok freshToken) =
      ⟨.ok freshToken, c2Cred.token_cache.store "cache-1" freshToken, true⟩ := by
  constructor
  · exact ((get_token_silent_cache_spec c2Cred 3000
      (.ok freshToken)).1 cachedToken rfl).1 rfl
  · exact ((get_token_silent_cache_spec c2Cred 3595
      (.ok freshToken)).1 cachedToken rfl).2 rfl freshToken rfl

/-- Claim C3: for a client-secret credential with a non-nil client id and
a secret that is non-blank after trimming, the form map contains neither
a `client_id` nor a `client_secret` key — for every secret value — and
`basic_auth` always returns the client id and secret pair. -/
theorem client_secret_form_excludes_basic_auth_fields :
    (∀ c : ClientSecretCredential,
      c.app_config.client_id.is_nil = false →
      rustIsEmpty (rustTrim c.client_secret) = false →
      ∃ m, (c.form_urlencode).1 = .ok m ∧
        List.lookup "client_id" m = none ∧
        List.lookup "client_secret" m = none) ∧
    (∀ c : ClientSecretCredential,
      c.basic_auth = some (c.app_config.client_id.toString, c.client_secret)) := by
  refine ⟨fun c hnil hsec => ?_, fun c => rfl⟩
  by_cases hs : c.scope.isEmpty <;>
    simp [ClientSecretCredential.form_urlencode, rustIsEmpty_uuidToString,
      hnil, hsec, hs, OAuthSerializer.as_credential_map,
      OAuthSerializer.extendScopes, OAuthSerializer.get, OAuthSerializer.set,
      List.lookup, OAuthParameter.alias] <;>
    exact ⟨by rintro a b (⟨rfl, -⟩ | ⟨rfl, -⟩) <;> simp,
      by rintro a b (⟨rfl, -⟩ | ⟨rfl, -⟩) <;> simp⟩

/-- Claim C3 witness: at the concrete credential `secretCred` the form
map carries no `client_id`/`client_secret` key and `basic_auth` supplies
them. -/
theorem client_secret_form_excludes_basic_auth_fields_witness :
    (∃ m, (secretCred.form_urlencode).1 = .ok m ∧
      List.lookup "client_id" m = none ∧
      List.lookup "client_secret" m = none) ∧
    secretCred.basic_auth = some (Uuid.toString ⟨5⟩, "sec") :=
  ⟨client_secret_form_excludes_basic_auth_fields.1 secretCred rfl rfl,
    client_secret_form_excludes_basic_auth_fields.2 secretCred⟩

/-- Claim C4: for a certificate credential with valid client id and
client assertion — refresh token and authorization code both set and
non-blank gives the `refresh_token` grant (refresh preferred,
deterministically); only the authorization code set gives the
`authorization_code` grant; neither set is a validation error carrying
no map. -/
theorem certificate_grant_type_selection (c : AuthorizationCodeCertificateCredential)
    (hid : rustIsEmpty (rustTrim c.client_id) = false)
    (has : rustIsEmpty (rustTrim c.client_assertion) = false) :
    (∀ r a, c.refresh_token = some r → rustIsEmpty (rustTrim r) = false →
        c.authorization_code = some a → rustIsEmpty (rustTrim a) = false →
      ∃ m, (c.form_urlencode).1 = .ok m ∧
        List.lookup "grant_type" m = some "refresh_token") ∧
    (∀ a, c.refresh_token = none → c.authorization_code = some a →
        rustIsEmpty (rustTrim a) = false →
      ∃ m, (c.form_urlencode).1 = .ok m ∧
        List.lookup "grant_type" m = some "authorization_code") ∧
    (c.refresh_token = none → c.authorization_code = none →
      (c.form_urlencode).1 = .error (.requiredValue "code or refresh_token"
        (some "Either authorization code or refresh token is required"))) := by
  refine ⟨fun r a hr hre ha hae => ?_, fun a hrn ha hae => ?_, fun hrn han => ?_⟩
  · by_cases hat : rustIsEmpty (rustTrim c.client_assertion_type) <;>
      simp only [AuthorizationCodeCertificateCredential.form_urlencode, hid, has,
        hat, hr, hre, OAuthSerializer.as_credential_map, Bool.false_eq_true,
        if_false, if_true, List.cons_append, List.nil_append] <;>
      exact ⟨_, rfl, by
        rw [lookup_skip _ _ _ _ (by decide), lookup_skip _ _ _ _ (by decide),
          lookup_skip _ _ _ _ (by decide)]
        simp [List.filterMap_cons, OAuthSerializer.get_set, List.lookup,
          OAuthParameter.alias]⟩
  · by_cases hat : rustIsEmpty (rustTrim c.client_assertion_type) <;>
      simp only [AuthorizationCodeCertificateCredential.form_urlencode, hid, has,
        hat, hrn, ha, hae, OAuthSerializer.as_credential_map, Bool.false_eq_true,
        if_false, if_true, List.cons_append, List.nil_append] <;>
      exact ⟨_, rfl, by
        rw [lookup_skip _ _ _ _ (by decide), lookup_skip _ _ _ _ (by decide),
          lookup_skip _ _ _ _ (by decide), lookup_skip _ _ _ _ (by decide)]
        simp [List.filterMap_cons, OAuthSerializer.get_set, List.lookup,
          OAuthParameter.alias]⟩
  · by_cases hat : rustIsEmpty (rustTrim c.client_assertion_type) <;>
      simp [AuthorizationCodeCertificateCredential.form_urlencode, hid, has,
        hat, hrn, han, OAuthParameter.alias]

/-- Claim C4 witness: the three branches at concrete credentials — both
secrets set picks the refresh grant, code only picks the code grant,
neither is the validation error. -/
theorem certificate_grant_type_selection_witness :
    (∃ m, (certCredBoth.form_urlencode).1 = .ok m ∧
      List.lookup "grant_type" m = some "refresh_token") ∧
    (∃ m, (certCredCodeOnly.form_urlencode).1 = .ok m ∧
      List.lookup "grant_type" m = some "authorization_code") ∧
    (baseCertCred.form_urlencode).1 = .error (.requiredValue "code or refresh_token"
      (some "Either authorization code or refresh token is required")) :=
  ⟨(certificate_grant_type_selection certCredBoth rfl rfl).1
      "rt-1" "code-123" rfl rfl rfl rfl,
   (certificate_grant_type_selection certCredCodeOnly rfl rfl).2.1
      "code-123" rfl rfl rfl,
   (certificate_grant_type_selection baseCertCred rfl rfl).2.2 rfl rfl⟩

/-- Claim C5: serializing with an empty client id fails with the
missing-client-id validation error and carries no form map — for the
client-secret credential (whose UUID client id can only be "empty" by
being nil, its textual form never being empty) and for the certificate
credential (string client id blank after trimming).  The check is the
first one in both serializers, so no partially-filled map can escape. -/
theorem empty_client_id_fails_serialization :
    (∀ c : ClientSecretCredential, c.app_config.client_id.is_nil = true →
      (c.form_urlencode).1 = .error (.requiredValue "client_id" none)) ∧
    (∀ c : AuthorizationCodeCertificateCredential,
      rustIsEmpty (rustTrim c.client_id) = true →
      (c.form_urlencode).1 = .error (.requiredValue "client_id" none)) := by
  constructor
  · intro c h
    simp [ClientSecretCredential.form_urlencode, h, OAuthParameter.alias]
  · intro c h
    simp [AuthorizationCodeCertificateCredential.form_urlencode, h,
      OAuthParameter.alias]

/-- Claim C5 witness: the nil-UUID client-secret credential and the
blank-client-id certificate credential both fail with the
missing-client-id error. -/
theorem empty_client_id_fails_serialization_witness :
    (nilSecretCred.form_urlencode).1 = .error (.requiredValue "client_id" none) ∧
    (c8Cred.form_urlencode).1 = .error (.requiredValue "client_id" none) :=
  ⟨empty_client_id_fails_serialization.1 nilSecretCred rfl,
    empty_client_id_fails_serialization.2 c8Cred rfl⟩

/-- Claim C6: calling `uri()` twice in a row on the same credential state
is idempotent for both credentials: the second call — on the state the
first call mutated — returns exactly the first call's result (so both
succeed or both fail, and on success the URLs are byte-identical). -/
theorem uri_idempotent :
    (∀ c : ClientSecretCredential, ((c.uri).2.uri).1 = (c.uri).1) ∧
    (∀ (host : AzureAuthorityHost) (c : AuthorizationCodeCertificateCredential),
      ((c.uri host).2.uri host).1 = (c.uri host).1) := by
  constructor
  · intro c
    simp [ClientSecretCredential.uri, OAuthSerializer.authority,
      OAuthSerializer.get, OAuthSerializer.set]
  · intro host c
    simp [AuthorizationCodeCertificateCredential.uri, OAuthSerializer.authority,
      OAuthSerializer.get, OAuthSerializer.set]

/-- Claim C7: every failure of the interactive webview flow is one of the
ten enumerated terminal kinds; the terminal states absorb every further
event; and a `Failed` outcome is reported to the caller as its own error,
never swallowed. -/
theorem webview_errors_closed_set :
    (∀ k : WebViewExecutionError,
      (∃ u, k = .invalidRedirectUri u) ∨ k = .windowClosedRequested ∨
      k = .windowClosedOnInvalidNavigation ∨ k = .windowClosedOnTimeoutReached ∨
      (∃ reason, k = .invalidStartUri reason) ∨
      (∃ u, k = .redirectUriMissingQueryOrFragment u) ∨
      (∃ m, k = .serdeError m) ∨ (∃ m, k = .recvError m) ∨
      (∃ f, k = .authorizationError f) ∨ (∃ e, k = .authExecutionError e)) ∧
    (∀ (s : WebViewState) (e : WebViewEvent),
      s.isTerminal = true → webViewStep s e = s) ∧
    (∀ (k : WebViewExecutionError)
      (exchange : String → Except AuthExecutionError Token),
      webViewOutcome (.failed k) exchange = some (.error k)) := by
  refine ⟨fun k => ?_, fun s e h => ?_, fun k exchange => rfl⟩
  · cases k <;> simp
  · cases s <;> simp_all [WebViewState.isTerminal, webViewStep]

/-- Claim C7 witness: a concrete terminal failure ignores a further event
and is reported to the caller unchanged. -/
theorem webview_errors_closed_set_witness :
    webViewStep (.failed .windowClosedRequested) .timeoutReached =
      .failed .windowClosedRequested ∧
    webViewOutcome (.failed .windowClosedRequested)
        (fun _ => .error (.request "net")) =
      some (.error .windowClosedRequested) :=
  ⟨webview_errors_closed_set.2.1 (.failed .windowClosedRequested)
      .timeoutReached rfl,
    webview_errors_closed_set.2.2 .windowClosedRequested
      (fun _ => .error (.request "net"))⟩

/-- Claim C8 counterexample: on a credential whose client id is empty,
whose refresh token is present but blank and whose authorization code is
non-empty, `form_urlencode` fails with the missing-client-id error, not
with the refresh-token-is-empty error — so the claim as stated (every
credential with a blank-but-present refresh token fails with the
refresh-token-is-empty error) is false. -/
theorem blank_refresh_token_counterexample :
    c8Cred.refresh_token = some "" ∧ rustIsEmpty (rustTrim "") = true ∧
    c8Cred.authorization_code = some "code-123" ∧
    (c8Cred.form_urlencode).1 = .error (.requiredValue "client_id" none) ∧
    (c8Cred.form_urlencode).1 ≠ .error (.requiredValue "refresh_token"
      (some "refresh_token is empty - cannot be an empty string")) := by
  refine ⟨rfl, rfl, rfl, rfl, ?_⟩
  decide

/-- Claim C8 as amended: for a certificate credential that passes the
earlier client-id and client-assertion checks, a present-but-blank
refresh token always fails with the refresh-token-is-empty validation
error — even when a non-empty authorization code is also set, the
credential never falls back to the authorization-code grant. -/
theorem blank_refresh_token_rejected (c : AuthorizationCodeCertificateCredential)
    (r : String)
    (hid : rustIsEmpty (rustTrim c.client_id) = false)
    (has : rustIsEmpty (rustTrim c.client_assertion) = false)
    (hr : c.refresh_token = some r)
    (hre : rustIsEmpty (rustTrim r) = true) :
    (c.form_urlencode).1 = .error (.requiredValue "refresh_token"
      (some "refresh_token is empty - cannot be an empty string")) := by
  by_cases hat : rustIsEmpty (rustTrim c.client_assertion_type) <;>
    simp [AuthorizationCodeCertificateCredential.form_urlencode, hid, has,
      hat, hr, hre, OAuthParameter.alias]

/-- Claim C8 witness: the amended statement at a concrete credential with
a valid client id, a one-space refresh token, and a non-empty
authorization code. -/
theorem blank_refresh_token_rejected_witness :
    (c8BlankRefreshCred.form_urlencode).1 = .error (.requiredValue "refresh_token"
      (some "refresh_token is empty - cannot be an empty string")) :=
  blank_refresh_token_rejected c8BlankRefreshCred " " rfl rfl rfl rfl

/-- Claim C9: on the builder, `with_refresh_token` sets the refresh token
AND resets the authorization code to `None`, changing no other field;
`with_authorization_code` sets the authorization code and leaves a
previously set refresh token in place, changing no other field; so after
`with_refresh_token` then `with_authorization_code` both fields are set,
and whenever serialization succeeds it still selects the refresh-token
grant. -/
theorem builder_refresh_then_code :
    ∀ (b : AuthorizationCodeCertificateCredentialBuilder) (r a : String),
      ((b.with_refresh_token r).credential.refresh_token = some r ∧
       (b.with_refresh_token r).credential.authorization_code = none ∧
       (b.with_refresh_token r).credential.client_id = b.credential.client_id ∧
       (b.with_refresh_token r).credential.redirect_uri
         = b.credential.redirect_uri ∧
       (b.with_refresh_token r).credential.code_verifier
         = b.credential.code_verifier ∧
       (b.with_refresh_token r).credential.client_assertion_type
         = b.credential.client_assertion_type ∧
       (b.with_refresh_token r).credential.client_assertion
         = b.credential.client_assertion ∧
       (b.with_refresh_token r).credential.scope = b.credential.scope ∧
       (b.with_refresh_token r).credential.authority = b.credential.authority ∧
       (b.with_refresh_token r).credential.serializer
         = b.credential.serializer) ∧
      ((b.with_authorization_code a).credential.authorization_code = some a ∧
       (b.with_authorization_code a).credential.refresh_token
         = b.credential.refresh_token ∧
       (b.with_authorization_code a).credential.client_id
         = b.credential.client_id ∧
       (b.with_authorization_code a).credential.redirect_uri
         = b.credential.redirect_uri ∧
       (b.with_authorization_code a).credential.code_verifier
         = b.credential.code_verifier ∧
       (b.with_authorization_code a).credential.client_assertion_type
         = b.credential.client_assertion_type ∧
       (b.with_authorization_code a).credential.client_assertion
         = b.credential.client_assertion ∧
       (b.with_authorization_code a).credential.scope = b.credential.scope ∧
       (b.with_authorization_code a).credential.authority
         = b.credential.authority ∧
       (b.with_authorization_code a).credential.serializer
         = b.credential.serializer) ∧
      (((b.with_refresh_token r).with_authorization_code a).credential.refresh_token
         = some r ∧
       ((b.with_refresh_token r).with_authorization_code a).credential.authorization_code
         = some a) ∧
      (∀ m,
        (((b.with_refresh_token r).with_authorization_code a).credential.form_urlencode).1
            = .ok m →
        List.lookup "grant_type" m = some "refresh_token") := by
  intro b r a
  refine ⟨⟨rfl, rfl, rfl, rfl, rfl, rfl, rfl, rfl, rfl, rfl⟩,
    ⟨rfl, rfl, rfl, rfl, rfl, rfl, rfl, rfl, rfl, rfl⟩, ⟨rfl, rfl⟩,
    fun m hm => ?_⟩
  set c := ((b.with_refresh_token r).with_authorization_code a).credential with hc
  by_cases hid : rustIsEmpty (rustTrim c.client_id)
  · simp [AuthorizationCodeCertificateCredential.form_urlencode, hid] at hm
  by_cases has : rustIsEmpty (rustTrim c.client_assertion)
  · simp [AuthorizationCodeCertificateCredential.form_urlencode, hid, has] at hm
  by_cases hre : rustIsEmpty (rustTrim r)
  · have hrt : c.refresh_token = some r := rfl
    by_cases hat : rustIsEmpty (rustTrim c.client_assertion_type) <;>
      simp [AuthorizationCodeCertificateCredential.form_urlencode, hid, has,
        hat, hrt, hre] at hm
  · have hrt : c.refresh_token = some r := rfl
    by_cases hat : rustIsEmpty (rustTrim c.client_assertion_type) <;>
      simp only [AuthorizationCodeCertificateCredential.form_urlencode, hid, has,
        hat, hrt, hre, OAuthSerializer.as_credential_map, Bool.false_eq_true,
        if_false, if_true, List.cons_append, List.nil_append,
        Except.ok.injEq] at hm <;>
      subst hm <;>
      rw [lookup_skip _ _ _ _ (by decide), lookup_skip _ _ _ _ (by decide),
        lookup_skip _ _ _ _ (by decide)] <;>
      simp [List.filterMap_cons, OAuthSerializer.get_set, List.lookup,
        OAuthParameter.alias]

/-- Claim C9 witness: at the concrete builder the two fields end up both
set and the serialized form selects the refresh-token grant. -/
theorem builder_refresh_then_code_witness :
    ((c9Builder.with_refresh_token "rt-9").with_authorization_code
        "code-9").credential.refresh_token = some "rt-9" ∧
    ((c9Builder.with_refresh_token "rt-9").with_authorization_code
        "code-9").credential.authorization_code = some "code-9" ∧
    (((c9Builder.with_refresh_token "rt-9").with_authorization_code
        "code-9").credential.form_urlencode).1 = .ok c9FormMap ∧
    List.lookup "grant_type" c9FormMap = some "refresh_token" :=
  ⟨rfl, rfl, rfl,
    (builder_refresh_then_code c9Builder "rt-9" "code-9").2.2.2 c9FormMap rfl⟩

/-- Claim C10: the missing-client-id branch of the client-secret
serializer fires exactly when the client id is the nil UUID — the
string-emptiness half of its guard can never fire on its own, because a
UUID always formats to a non-empty string. -/
theorem missing_client_id_iff_nil :
    (∀ u : Uuid, rustIsEmpty u.toString = false) ∧
    (∀ c : ClientSecretCredential,
      ((c.form_urlencode).1 = .error (.requiredValue "client_id" none) ↔
        c.app_config.client_id.is_nil = true)) := by
  refine ⟨rustIsEmpty_uuidToString, fun c => ⟨?_, ?_⟩⟩
  · intro h
    by_cases hnil : c.app_config.client_id.is_nil
    · exact hnil
    · exfalso
      by_cases hsec : rustIsEmpty (rustTrim c.client_secret)
      · simp [ClientSecretCredential.form_urlencode, rustIsEmpty_uuidToString,
          hnil, hsec, OAuthParameter.alias] at h
      · simp [ClientSecretCredential.form_urlencode, rustIsEmpty_uuidToString,
          hnil, hsec, OAuthSerializer.as_credential_map] at h
  · intro h
    simp [ClientSecretCredential.form_urlencode, h, OAuthParameter.alias]

/-- Claim C10 witness: the nil UUID still formats to a non-empty string,
and the nil-client-id credential takes the missing-client-id branch. -/
theorem missing_client_id_iff_nil_witness :
    rustIsEmpty (Uuid.toString ⟨0⟩) = false ∧
    (nilSecretCred.form_urlencode).1 = .error (.requiredValue "client_id" none) :=
  ⟨missing_client_id_iff_nil.1 ⟨0⟩,
    (missing_client_id_iff_nil.2 nilSecretCred).mpr rfl⟩

end GraphOauth
